import Mathlib

/-!
# Verification of the Sankey material-flow diagram layout/routing core

Shallow embedding of the repository's core:

* the Graph Builder `processYearData` (with its local helper `addLink`),
  which maps one spreadsheet row to the fixed node vocabulary and the
  value-weighted typed links;
* the saved-layout application and hand-authored default layout of the
  diagram component's initial-layout effect;
* the save-layout handler `handleSaveClick`;
* the routing engine `routedGraph` (side inference, per-node/side/direction
  buckets, stable sorting by opposite-endpoint center, and on-edge position
  assignment with manual-offset overrides).

Numbers are embedded as `ℚ` (the source manipulates IEEE doubles, but every
claim under verification is about exact small decimal constants and
order/linear arithmetic, where `ℚ` is faithful).  JavaScript's `x || 0`
idiom on optional numeric fields is embedded by `jsOr`: absent and `0` are
falsy, any other number (negative included) is truthy.
-/

/-- JS `a || b` for an optional numeric `a`: `b` when `a` is absent or `0`. -/
def jsOr (a : Option ℚ) (b : ℚ) : ℚ :=
  match a with
  | none => b
  | some v => if v = 0 then b else v

/-- `Math.abs`, written so that the kernel can evaluate it on rational
literals. -/
def jsAbs (q : ℚ) : ℚ := if q < 0 then -q else q

theorem jsAbs_eq_abs (q : ℚ) : jsAbs q = |q| := by
  unfold jsAbs
  by_cases h : q < 0
  · simp [h, abs_of_neg h]
  · simp [h, abs_of_nonneg (not_lt.mp h)]

theorem jsOr_zero (a : Option ℚ) : jsOr a 0 = a.getD 0 := by
  rcases a with _ | v
  · rfl
  · by_cases h : v = 0 <;> simp [jsOr, h]

/-! ## Data model (`types.ts`) -/

/-- One spreadsheet row (`NdDataRow`).  Every numeric field the builder reads
is embedded as `Option ℚ`: the loader may omit any column and the builder
treats a missing field as `0` via `row['…'] || 0`. -/
structure NdDataRow where
  year : ℚ := 0
  «domestic-ore» : Option ℚ := none
  «trade-concentrate» : Option ℚ := none
  «domestic-concentrate» : Option ℚ := none
  «loss-concentrate» : Option ℚ := none
  «trade-metal» : Option ℚ := none
  «domestic-metal» : Option ℚ := none
  «loss-metal» : Option ℚ := none
  «permanent magnets-ex(kt)» : Option ℚ := none
  «trade-permenent magnets» : Option ℚ := none
  «domestic-permenent magnets» : Option ℚ := none
  «domestic-other semi-products» : Option ℚ := none
  «loss-permenent magnets» : Option ℚ := none
  «domestic-other finalproducts» : Option ℚ := none
  «trade-wind turbine» : Option ℚ := none
  «Wind Turbine outflow» : Option ℚ := none
  «Others outflow» : Option ℚ := none
  «end of life» : Option ℚ := none
  «end of life to loss» : Option ℚ := none
  «export-concentrate» : Option ℚ := none
  «export-metal» : Option ℚ := none
  «export-permenent magnets» : Option ℚ := none
  «export-wind turbine» : Option ℚ := none
  «export-other semi-products» : Option ℚ := none
  «export-other finalproducts» : Option ℚ := none

inductive NodeCategory
  | process | trade | loss | end_of_life
deriving DecidableEq, Repr

/-- Builder-side node record (`SankeyNode` before layout): stable id,
display name and category. -/
structure SankeyNode where
  id : String
  name : String
  category : NodeCategory
deriving DecidableEq, Repr

inductive LinkType
  | domestic | trade | loss
deriving DecidableEq, Repr

/-- Builder-side link record: endpoints are indices into the node array,
exactly as `addLink(source, target, …)` pushes them. -/
structure SankeyLink where
  source : Nat
  target : Nat
  value : ℚ
  realValue : ℚ
  type : LinkType
deriving DecidableEq, Repr

structure GraphData where
  nodes : List SankeyNode
  links : List SankeyLink
deriving DecidableEq, Repr

/-! ## Graph Builder (`dataProcessor.ts` / `processYearData`) -/

/-- The builder's `addLink` helper: take the absolute value, remember it as
`realValue`, floor the layout `value` to `0.25` for force-visible links, and
emit the link only when the (possibly floored) value exceeds `0.001`.
Returns `none` when the link is dropped. -/
def addLink (source target : Nat) (value : ℚ) (type : LinkType)
    (forceVisible : Bool) : Option SankeyLink :=
  let absValue := jsAbs value
  let realValue := absValue
  let absValue := if forceVisible ∧ absValue < 1/4 then 1/4 else absValue
  if absValue > 1/1000 then
    some { source, target, value := absValue, realValue, type }
  else
    none

/-- `exportConcentrate` aggregate: `trade-concentrate` plus its
`export-` alias. -/
def exportConcentrate (row : NdDataRow) : ℚ :=
  jsOr row.«trade-concentrate» 0 + jsOr row.«export-concentrate» 0

def exportMetal (row : NdDataRow) : ℚ :=
  jsOr row.«trade-metal» 0 + jsOr row.«export-metal» 0

/-- `otherSemiFlow`: the single field `'domestic-other semi-products'`,
feeding both the metal→other_semi and other_semi→other_final links. -/
def otherSemiFlow (row : NdDataRow) : ℚ :=
  jsOr row.«domestic-other semi-products» 0

def totalMagnetExport (row : NdDataRow) : ℚ :=
  jsOr row.«permanent magnets-ex(kt)» 0 + jsOr row.«trade-permenent magnets» 0
    + jsOr row.«export-permenent magnets» 0

def exportOtherSemi (row : NdDataRow) : ℚ :=
  jsOr row.«export-other semi-products» 0

def exportWindTurbine (row : NdDataRow) : ℚ :=
  jsOr row.«trade-wind turbine» 0 + jsOr row.«export-wind turbine» 0

def exportOtherFinal (row : NdDataRow) : ℚ :=
  jsOr row.«export-other finalproducts» 0

def wtOutflow (row : NdDataRow) : ℚ := jsOr row.«Wind Turbine outflow» 0

def othersOutflow (row : NdDataRow) : ℚ := jsOr row.«Others outflow» 0

/-- `eolToLoss`: JS `row['end of life'] || row['end of life to loss'] || 0` —
the canonical column wins only when present and nonzero. -/
def eolToLoss (row : NdDataRow) : ℚ :=
  jsOr row.«end of life» (jsOr row.«end of life to loss» 0)

/-- The builder's sequence of `addLink` calls, in source order.  Each entry
is `some link` when the call pushed a link and `none` when it did not. -/
def linkCalls (row : NdDataRow) : List (Option SankeyLink) :=
  [ addLink 0 1 (jsOr row.«domestic-ore» 0) .domestic false,
    addLink 1 8 (exportConcentrate row) .trade false,
    addLink 1 7 (jsOr row.«loss-concentrate» 0) .loss false,
    addLink 1 2 (jsOr row.«domestic-concentrate» 0) .domestic false,
    addLink 2 8 (exportMetal row) .trade false,
    addLink 2 7 (jsOr row.«loss-metal» 0) .loss false,
    addLink 2 3 (jsOr row.«domestic-metal» 0) .domestic false,
    addLink 2 4 (otherSemiFlow row) .domestic false,
    addLink 3 8 (totalMagnetExport row) .trade false,
    addLink 3 7 (jsOr row.«loss-permenent magnets» 0) .loss false,
    addLink 4 8 (exportOtherSemi row) .trade false,
    addLink 3 5 (jsOr row.«domestic-permenent magnets» 0) .domestic false,
    addLink 3 6 (jsOr row.«domestic-other finalproducts» 0) .domestic false,
    addLink 4 6 (otherSemiFlow row) .domestic false,
    addLink 5 8 (exportWindTurbine row) .trade false,
    addLink 6 8 (exportOtherFinal row) .trade false,
    addLink 5 9 (wtOutflow row) .domestic true,
    addLink 6 9 (othersOutflow row) .domestic true,
    addLink 9 7 (eolToLoss row) .loss true ]

/-- `processYearData`: the fixed 10-node vocabulary, and the links pushed by
the sequence of `addLink` calls, in source order.  Dropped links
(`addLink` = `none`) are filtered out, exactly as unexecuted `push`es. -/
def processYearData (row : NdDataRow) : GraphData :=
  { nodes :=
      [ { name := "Ore", id := "ore", category := .process },
        { name := "Concentrate", id := "concentrate", category := .process },
        { name := "Metal", id := "metal", category := .process },
        { name := "NdFeB Magnet", id := "magnet", category := .process },
        { name := "Other Semi-products", id := "other_semi", category := .process },
        { name := "Wind Turbine", id := "wind_turbine", category := .process },
        { name := "Other Final Products", id := "other_final", category := .process },
        { name := "Loss", id := "loss", category := .loss },
        { name := "Export", id := "export", category := .trade },
        { name := "End of Life", id := "eol", category := .end_of_life } ],
    links := List.filterMap id (linkCalls row) }

/-- Look up the (unique) link between a source/target index pair. -/
def findLink (g : GraphData) (s t : Nat) : Option SankeyLink :=
  g.links.find? (fun l => l.source == s && l.target == t)

/-- The C1 scenario row: `{year: 2020, 'domestic-ore': 100}`, every other
field absent. -/
def rowOre100 : NdDataRow := { year := 2020, «domestic-ore» := some 100 }

/-- **C1, counterexample.**  On the row `{year:2020, 'domestic-ore':100}` the
builder emits four links, not one: the three force-visible end-of-life links
(wind_turbine→eol, other_final→eol, eol→loss) are pushed even though their
magnitudes are `0`, because `addLink` floors a force-visible value to `0.25`
before the `> 0.001` visibility test.  So the claim "the graph contains
exactly one link" is false. -/
theorem c1_counterexample :
    (processYearData rowOre100).links.length = 4 ∧
      (processYearData rowOre100).links.length ≠ 1 := by
  constructor
  · with_unfolding_all rfl
  · with_unfolding_all decide

/-- **C1, amended.**  On the row `{year:2020, 'domestic-ore':100}` the graph
contains a visible domestic link ore→concentrate with `value = realValue =
100`, together with exactly the three force-visible links wind_turbine→eol,
other_final→eol (domestic) and eol→loss (loss), each with `value = 0.25` and
`realValue = 0`; no other links are present. -/
theorem c1_amended :
    (processYearData rowOre100).links =
      [ { source := 0, target := 1, value := 100, realValue := 100, type := .domestic },
        { source := 5, target := 9, value := 1/4, realValue := 0, type := .domestic },
        { source := 6, target := 9, value := 1/4, realValue := 0, type := .domestic },
        { source := 9, target := 7, value := 1/4, realValue := 0, type := .loss } ] := by
  with_unfolding_all rfl

/-! ## Locating individual links in the builder output -/

/-- `find?` for the (source, target) pair over a list of optional pushes. -/
def findPair (s t : Nat) (os : List (Option SankeyLink)) : Option SankeyLink :=
  (List.filterMap id os).find? (fun l => l.source == s && l.target == t)

theorem findLink_processYearData (row : NdDataRow) (s t : Nat) :
    findLink (processYearData row) s t = findPair s t (linkCalls row) := rfl

theorem addLink_false_eq (s t : Nat) (v : ℚ) (ty : LinkType) :
    addLink s t v ty false =
      if 1/1000 < jsAbs v then
        some { source := s, target := t, value := jsAbs v, realValue := jsAbs v, type := ty }
      else none := by
  simp only [addLink, Bool.false_eq_true, false_and, if_false, gt_iff_lt]

theorem addLink_true_eq (s t : Nat) (v : ℚ) (ty : LinkType) :
    addLink s t v ty true =
      some { source := s, target := t,
             value := if jsAbs v < 1/4 then 1/4 else jsAbs v,
             realValue := jsAbs v, type := ty } := by
  simp only [addLink, gt_iff_lt, true_and]
  split_ifs with h1 h2 h3
  · rfl
  · exact absurd (by norm_num : (1/1000 : ℚ) < 1/4) h2
  · rfl
  · exact absurd (lt_of_lt_of_le (by norm_num : (1/1000 : ℚ) < 1/4) (not_lt.mp h1)) h3

theorem addLink_eq_some (s t : Nat) (v : ℚ) (ty : LinkType) (fv : Bool)
    (l : SankeyLink) (h : addLink s t v ty fv = some l) :
    l.source = s ∧ l.target = t := by
  cases fv
  · rw [addLink_false_eq] at h
    split_ifs at h
    cases h
    exact ⟨rfl, rfl⟩
  · rw [addLink_true_eq] at h
    cases h
    exact ⟨rfl, rfl⟩

theorem findPair_nil (s t : Nat) : findPair s t [] = none := rfl

theorem findPair_cons_none (s t : Nat) (r : List (Option SankeyLink)) :
    findPair s t (none :: r) = findPair s t r := by
  simp [findPair]

theorem findPair_cons_some (s t : Nat) (l : SankeyLink) (r : List (Option SankeyLink)) :
    findPair s t (some l :: r) =
      if l.source == s && l.target == t then some l else findPair s t r := by
  cases h : (l.source == s && l.target == t) <;>
    simp [findPair, List.find?_cons, h]

/-- Skipping one `addLink` push whose endpoint pair is not the one sought. -/
theorem findPair_skip (s t s' t' : Nat) (v : ℚ) (ty : LinkType) (fv : Bool)
    (r : List (Option SankeyLink)) (h : ¬(s' = s ∧ t' = t)) :
    findPair s t (addLink s' t' v ty fv :: r) = findPair s t r := by
  cases hal : addLink s' t' v ty fv with
  | none => rw [findPair_cons_none]
  | some l =>
    obtain ⟨hs, ht⟩ := addLink_eq_some _ _ _ _ _ _ hal
    rw [findPair_cons_some]
    have hb : (l.source == s && l.target == t) = false := by
      subst hs ht
      by_cases hs' : l.source = s <;> by_cases ht' : l.target = t <;> simp_all
    rw [hb]
    simp

/-- A force-visible `addLink` push at the sought pair is always found. -/
theorem findPair_force (s t : Nat) (v : ℚ) (ty : LinkType)
    (r : List (Option SankeyLink)) :
    findPair s t (addLink s t v ty true :: r) =
      some { source := s, target := t,
             value := if jsAbs v < 1/4 then 1/4 else jsAbs v,
             realValue := jsAbs v, type := ty } := by
  rw [addLink_true_eq, findPair_cons_some]
  simp

/-- A plain `addLink` push at the sought pair, when the pair occurs nowhere
later in the list. -/
theorem findPair_plain (s t : Nat) (v : ℚ) (ty : LinkType)
    (r : List (Option SankeyLink)) (hr : findPair s t r = none) :
    findPair s t (addLink s t v ty false :: r) =
      if 1/1000 < jsAbs v then
        some { source := s, target := t, value := jsAbs v, realValue := jsAbs v, type := ty }
      else none := by
  rw [addLink_false_eq]
  split_ifs with h
  · rw [findPair_cons_some]
    simp
  · rw [findPair_cons_none, hr]

theorem findLink_5_9 (row : NdDataRow) :
    findLink (processYearData row) 5 9 =
      some { source := 5, target := 9,
             value := if jsAbs (wtOutflow row) < 1/4 then 1/4 else jsAbs (wtOutflow row),
             realValue := jsAbs (wtOutflow row), type := .domestic } := by
  rw [findLink_processYearData, linkCalls]
  rw [findPair_skip 5 9 0 1 _ _ _ _ (by decide),
      findPair_skip 5 9 1 8 _ _ _ _ (by decide),
      findPair_skip 5 9 1 7 _ _ _ _ (by decide),
      findPair_skip 5 9 1 2 _ _ _ _ (by decide),
      findPair_skip 5 9 2 8 _ _ _ _ (by decide),
      findPair_skip 5 9 2 7 _ _ _ _ (by decide),
      findPair_skip 5 9 2 3 _ _ _ _ (by decide),
      findPair_skip 5 9 2 4 _ _ _ _ (by decide),
      findPair_skip 5 9 3 8 _ _ _ _ (by decide),
      findPair_skip 5 9 3 7 _ _ _ _ (by decide),
      findPair_skip 5 9 4 8 _ _ _ _ (by decide),
      findPair_skip 5 9 3 5 _ _ _ _ (by decide),
      findPair_skip 5 9 3 6 _ _ _ _ (by decide),
      findPair_skip 5 9 4 6 _ _ _ _ (by decide),
      findPair_skip 5 9 5 8 _ _ _ _ (by decide),
      findPair_skip 5 9 6 8 _ _ _ _ (by decide),
      findPair_force]

theorem findLink_6_9 (row : NdDataRow) :
    findLink (processYearData row) 6 9 =
      some { source := 6, target := 9,
             value := if jsAbs (othersOutflow row) < 1/4 then 1/4
                      else jsAbs (othersOutflow row),
             realValue := jsAbs (othersOutflow row), type := .domestic } := by
  rw [findLink_processYearData, linkCalls]
  rw [findPair_skip 6 9 0 1 _ _ _ _ (by decide),
      findPair_skip 6 9 1 8 _ _ _ _ (by decide),
      findPair_skip 6 9 1 7 _ _ _ _ (by decide),
      findPair_skip 6 9 1 2 _ _ _ _ (by decide),
      findPair_skip 6 9 2 8 _ _ _ _ (by decide),
      findPair_skip 6 9 2 7 _ _ _ _ (by decide),
      findPair_skip 6 9 2 3 _ _ _ _ (by decide),
      findPair_skip 6 9 2 4 _ _ _ _ (by decide),
      findPair_skip 6 9 3 8 _ _ _ _ (by decide),
      findPair_skip 6 9 3 7 _ _ _ _ (by decide),
      findPair_skip 6 9 4 8 _ _ _ _ (by decide),
      findPair_skip 6 9 3 5 _ _ _ _ (by decide),
      findPair_skip 6 9 3 6 _ _ _ _ (by decide),
      findPair_skip 6 9 4 6 _ _ _ _ (by decide),
      findPair_skip 6 9 5 8 _ _ _ _ (by decide),
      findPair_skip 6 9 6 8 _ _ _ _ (by decide),
      findPair_skip 6 9 5 9 _ _ _ _ (by decide),
      findPair_force]

theorem findLink_9_7 (row : NdDataRow) :
    findLink (processYearData row) 9 7 =
      some { source := 9, target := 7,
             value := if jsAbs (eolToLoss row) < 1/4 then 1/4 else jsAbs (eolToLoss row),
             realValue := jsAbs (eolToLoss row), type := .loss } := by
  rw [findLink_processYearData, linkCalls]
  rw [findPair_skip 9 7 0 1 _ _ _ _ (by decide),
      findPair_skip 9 7 1 8 _ _ _ _ (by decide),
      findPair_skip 9 7 1 7 _ _ _ _ (by decide),
      findPair_skip 9 7 1 2 _ _ _ _ (by decide),
      findPair_skip 9 7 2 8 _ _ _ _ (by decide),
      findPair_skip 9 7 2 7 _ _ _ _ (by decide),
      findPair_skip 9 7 2 3 _ _ _ _ (by decide),
      findPair_skip 9 7 2 4 _ _ _ _ (by decide),
      findPair_skip 9 7 3 8 _ _ _ _ (by decide),
      findPair_skip 9 7 3 7 _ _ _ _ (by decide),
      findPair_skip 9 7 4 8 _ _ _ _ (by decide),
      findPair_skip 9 7 3 5 _ _ _ _ (by decide),
      findPair_skip 9 7 3 6 _ _ _ _ (by decide),
      findPair_skip 9 7 4 6 _ _ _ _ (by decide),
      findPair_skip 9 7 5 8 _ _ _ _ (by decide),
      findPair_skip 9 7 6 8 _ _ _ _ (by decide),
      findPair_skip 9 7 5 9 _ _ _ _ (by decide),
      findPair_skip 9 7 6 9 _ _ _ _ (by decide),
      findPair_force]

theorem findLink_2_4 (row : NdDataRow) :
    findLink (processYearData row) 2 4 =
      if 1/1000 < jsAbs (otherSemiFlow row) then
        some { source := 2, target := 4, value := jsAbs (otherSemiFlow row),
               realValue := jsAbs (otherSemiFlow row), type := .domestic }
      else none := by
  rw [findLink_processYearData, linkCalls]
  rw [findPair_skip 2 4 0 1 _ _ _ _ (by decide),
      findPair_skip 2 4 1 8 _ _ _ _ (by decide),
      findPair_skip 2 4 1 7 _ _ _ _ (by decide),
      findPair_skip 2 4 1 2 _ _ _ _ (by decide),
      findPair_skip 2 4 2 8 _ _ _ _ (by decide),
      findPair_skip 2 4 2 7 _ _ _ _ (by decide),
      findPair_skip 2 4 2 3 _ _ _ _ (by decide)]
  refine findPair_plain 2 4 _ _ _ ?_
  rw [findPair_skip 2 4 3 8 _ _ _ _ (by decide),
      findPair_skip 2 4 3 7 _ _ _ _ (by decide),
      findPair_skip 2 4 4 8 _ _ _ _ (by decide),
      findPair_skip 2 4 3 5 _ _ _ _ (by decide),
      findPair_skip 2 4 3 6 _ _ _ _ (by decide),
      findPair_skip 2 4 4 6 _ _ _ _ (by decide),
      findPair_skip 2 4 5 8 _ _ _ _ (by decide),
      findPair_skip 2 4 6 8 _ _ _ _ (by decide),
      findPair_skip 2 4 5 9 _ _ _ _ (by decide),
      findPair_skip 2 4 6 9 _ _ _ _ (by decide),
      findPair_skip 2 4 9 7 _ _ _ _ (by decide),
      findPair_nil]

theorem findLink_4_6 (row : NdDataRow) :
    findLink (processYearData row) 4 6 =
      if 1/1000 < jsAbs (otherSemiFlow row) then
        some { source := 4, target := 6, value := jsAbs (otherSemiFlow row),
               realValue := jsAbs (otherSemiFlow row), type := .domestic }
      else none := by
  rw [findLink_processYearData, linkCalls]
  rw [findPair_skip 4 6 0 1 _ _ _ _ (by decide),
      findPair_skip 4 6 1 8 _ _ _ _ (by decide),
      findPair_skip 4 6 1 7 _ _ _ _ (by decide),
      findPair_skip 4 6 1 2 _ _ _ _ (by decide),
      findPair_skip 4 6 2 8 _ _ _ _ (by decide),
      findPair_skip 4 6 2 7 _ _ _ _ (by decide),
      findPair_skip 4 6 2 3 _ _ _ _ (by decide),
      findPair_skip 4 6 2 4 _ _ _ _ (by decide),
      findPair_skip 4 6 3 8 _ _ _ _ (by decide),
      findPair_skip 4 6 3 7 _ _ _ _ (by decide),
      findPair_skip 4 6 4 8 _ _ _ _ (by decide),
      findPair_skip 4 6 3 5 _ _ _ _ (by decide),
      findPair_skip 4 6 3 6 _ _ _ _ (by decide)]
  refine findPair_plain 4 6 _ _ _ ?_
  rw [findPair_skip 4 6 5 8 _ _ _ _ (by decide),
      findPair_skip 4 6 6 8 _ _ _ _ (by decide),
      findPair_skip 4 6 5 9 _ _ _ _ (by decide),
      findPair_skip 4 6 6 9 _ _ _ _ (by decide),
      findPair_skip 4 6 9 7 _ _ _ _ (by decide),
      findPair_nil]

/-- The C5 scenario row: `'Wind Turbine outflow': 0`. -/
def rowWT0 : NdDataRow := { «Wind Turbine outflow» := some 0 }

/-- **C5.**  Every force-visible link emitted by the builder
(wind_turbine→eol, other_final→eol, eol→loss) has `value ≥ 0.25`, while its
`realValue` is the true computed magnitude (possibly `0`); and the concrete
row with `'Wind Turbine outflow' = 0` still yields a wind_turbine→eol link
with `value = 0.25` and `realValue = 0`. -/
theorem c5_force_visible (row : NdDataRow) :
    (∃ l, findLink (processYearData row) 5 9 = some l ∧
      1/4 ≤ l.value ∧ l.realValue = |wtOutflow row|) ∧
    (∃ l, findLink (processYearData row) 6 9 = some l ∧
      1/4 ≤ l.value ∧ l.realValue = |othersOutflow row|) ∧
    (∃ l, findLink (processYearData row) 9 7 = some l ∧
      1/4 ≤ l.value ∧ l.realValue = |eolToLoss row|) ∧
    findLink (processYearData rowWT0) 5 9 =
      some { source := 5, target := 9, value := 1/4, realValue := 0,
             type := .domestic } := by
  refine ⟨⟨_, findLink_5_9 row, ?_, jsAbs_eq_abs _⟩,
          ⟨_, findLink_6_9 row, ?_, jsAbs_eq_abs _⟩,
          ⟨_, findLink_9_7 row, ?_, jsAbs_eq_abs _⟩, ?_⟩
  · dsimp only
    split_ifs with h
    · exact le_refl _
    · exact not_lt.mp h
  · dsimp only
    split_ifs with h
    · exact le_refl _
    · exact not_lt.mp h
  · dsimp only
    split_ifs with h
    · exact le_refl _
    · exact not_lt.mp h
  · rw [findLink_5_9]
    have h0 : wtOutflow rowWT0 = 0 := rfl
    rw [h0]
    norm_num [jsAbs]

/-- **C9.**  The eol→loss magnitude comes from `'end of life'` only when that
field is present and nonzero; when it is `0` or absent, the
backward-compatibility field `'end of life to loss'` supplies the magnitude,
so a zero in the canonical column does not shadow a nonzero alias column. -/
theorem c9_eol_fallback (row : NdDataRow) (v : ℚ) :
    (row.«end of life» = some v → v ≠ 0 →
      ∃ l, findLink (processYearData row) 9 7 = some l ∧ l.realValue = |v|) ∧
    (row.«end of life» = none ∨ row.«end of life» = some 0 →
      ∃ l, findLink (processYearData row) 9 7 = some l ∧
        l.realValue = |(row.«end of life to loss»).getD 0|) := by
  constructor
  · intro h hv
    refine ⟨_, findLink_9_7 row, ?_⟩
    dsimp only
    rw [jsAbs_eq_abs]
    have : eolToLoss row = v := by simp [eolToLoss, jsOr, h, hv]
    rw [this]
  · intro h
    refine ⟨_, findLink_9_7 row, ?_⟩
    dsimp only
    rw [jsAbs_eq_abs]
    have h2 := jsOr_zero row.«end of life to loss»
    have : eolToLoss row = (row.«end of life to loss»).getD 0 := by
      rcases h with h | h
      · simp only [eolToLoss, h, jsOr] at h2 ⊢
        exact h2
      · simp only [eolToLoss, h, jsOr] at h2 ⊢
        rw [if_pos trivial]
        exact h2
    rw [this]

/-- Witness row for C9: canonical column present but zero, alias nonzero. -/
def rowShadow : NdDataRow := { «end of life» := some 0, «end of life to loss» := some 5 }

/-- Witness for C9: on a row with `'end of life' = 0` and
`'end of life to loss' = 5`, the eol→loss link's `realValue` is the alias
value `5`. -/
theorem c9_eol_fallback_witness :
    ∃ l, findLink (processYearData rowShadow) 9 7 = some l ∧
      l.realValue = |(rowShadow.«end of life to loss»).getD 0| :=
  (c9_eol_fallback rowShadow 0).2 (Or.inr rfl)

/-- **C10.**  The metal→other_semi link and the other_semi→other_final link
are both derived from the single field `'domestic-other semi-products'`:
each is emitted exactly when that field's magnitude exceeds `0.001`, and
whenever both are present they carry identical `value` and identical
`realValue`. -/
theorem c10_other_semi_pair (row : NdDataRow) :
    ((findLink (processYearData row) 2 4).isSome ↔
      1/1000 < |(row.«domestic-other semi-products»).getD 0|) ∧
    ((findLink (processYearData row) 4 6).isSome ↔
      1/1000 < |(row.«domestic-other semi-products»).getD 0|) ∧
    (∀ l1 l2, findLink (processYearData row) 2 4 = some l1 →
      findLink (processYearData row) 4 6 = some l2 →
      l1.value = l2.value ∧ l1.realValue = l2.realValue) := by
  have habs : jsAbs (otherSemiFlow row) = |(row.«domestic-other semi-products»).getD 0| := by
    rw [jsAbs_eq_abs, otherSemiFlow, jsOr_zero]
  have h24 := findLink_2_4 row
  have h46 := findLink_4_6 row
  refine ⟨?_, ?_, ?_⟩
  · rw [h24, ← habs]
    split_ifs with h
    · simpa using h
    · simpa using h
  · rw [h46, ← habs]
    split_ifs with h
    · simpa using h
    · simpa using h
  · intro l1 l2 e1 e2
    rw [h24] at e1
    rw [h46] at e2
    split_ifs at e1 e2 with h
    cases e1
    cases e2
    exact ⟨rfl, rfl⟩

/-- Witness row for C10: `'domestic-other semi-products' = 2`. -/
def rowOtherSemi2 : NdDataRow := { «domestic-other semi-products» := some 2 }

/-- Witness for C10: with the field equal to `2`, both links are present and
carry the same `value` and `realValue`. -/
theorem c10_other_semi_pair_witness :
    ((1:ℚ)/1000 < |(rowOtherSemi2.«domestic-other semi-products»).getD 0|) ∧
    (({ source := 2, target := 4, value := 2, realValue := 2, type := .domestic } :
        SankeyLink).value =
      ({ source := 4, target := 6, value := 2, realValue := 2, type := .domestic } :
        SankeyLink).value ∧
     ({ source := 2, target := 4, value := 2, realValue := 2, type := .domestic } :
        SankeyLink).realValue =
      ({ source := 4, target := 6, value := 2, realValue := 2, type := .domestic } :
        SankeyLink).realValue) :=
  ⟨by norm_num [rowOtherSemi2],
   (c10_other_semi_pair rowOtherSemi2).2.2 _ _
     (by with_unfolding_all rfl) (by with_unfolding_all rfl)⟩

/-! ## Diagram-side data model (`SankeyDiagram.tsx`)

After the generic d3 layout has run, every node carries concrete rectangle
coordinates, so the diagram-side node is embedded with `ℚ` extents.  The
source's `isRotated?: boolean` is an optional field read back with
`n.isRotated || false`; it is embedded as `Option Bool`. -/

structure DiagNode where
  id : String
  x0 : ℚ
  x1 : ℚ
  y0 : ℚ
  y1 : ℚ
  isRotated : Option Bool := none
deriving DecidableEq, Repr

/-- `SavedNodeLayout` from `types.ts`: all fields required. -/
structure SavedNodeLayout where
  x0 : ℚ
  x1 : ℚ
  y0 : ℚ
  y1 : ℚ
  isRotated : Bool
deriving DecidableEq, Repr

/-- Lookup in a JS record built by successive assignments: the *last*
assignment to a key wins. -/
def recordLookup {α : Type} : List (String × α) → String → Option α
  | [], _ => none
  | p :: rest, k =>
      match recordLookup rest k with
      | some v => some v
      | none => if p.1 = k then some p.2 else none

theorem recordLookup_cons {α : Type} (p : String × α) (m : List (String × α))
    (k : String) :
    recordLookup (p :: m) k =
      match recordLookup m k with
      | some v => some v
      | none => if p.1 = k then some p.2 else none := rfl

theorem recordLookup_eq_none {α : Type} (m : List (String × α)) (k : String)
    (h : ∀ p ∈ m, p.1 ≠ k) : recordLookup m k = none := by
  induction m with
  | nil => rfl
  | cons p rest ih =>
    rw [recordLookup_cons, ih (fun q hq => h q (List.mem_cons_of_mem _ hq))]
    rw [if_neg (h p (List.mem_cons_self _ _))]

theorem recordLookup_map_of_nodup {α : Type} (f : DiagNode → α) :
    ∀ (nodes : List DiagNode) (n : DiagNode),
      (nodes.map DiagNode.id).Nodup → n ∈ nodes →
      recordLookup (nodes.map (fun x => (x.id, f x))) n.id = some (f n) := by
  intro nodes
  induction nodes with
  | nil => intro n _ hn; cases hn
  | cons a rest ih =>
    intro n hnd hn
    rw [List.map_cons, List.nodup_cons] at hnd
    rw [List.map_cons, recordLookup_cons]
    rcases List.mem_cons.mp hn with rfl | hmem
    · rw [recordLookup_eq_none]
      · simp
      · intro p hp he
        obtain ⟨x, hx, rfl⟩ := List.mem_map.mp hp
        exact hnd.1 (he ▸ List.mem_map_of_mem DiagNode.id hx)
    · rw [ih n hnd.2 hmem]

/-! ## Layout Override Store: `handleSaveClick` and saved-layout application -/

/-- The per-node snapshot taken by `handleSaveClick`: the current rectangle
and `isRotated || false`. -/
def savedNodeOf (n : DiagNode) : SavedNodeLayout :=
  { x0 := n.x0, x1 := n.x1, y0 := n.y0, y1 := n.y1,
    isRotated := n.isRotated.getD false }

/-- `handleSaveClick`'s `nodesMap`: one record entry per node, keyed by id. -/
def handleSaveNodes (nodes : List DiagNode) : List (String × SavedNodeLayout) :=
  nodes.map (fun n => (n.id, savedNodeOf n))

/-- The `savedLayout?.nodes` branch of the initial-layout effect: each node
with a saved entry takes the saved rectangle and rotation flag; nodes
without an entry are untouched. -/
def applySavedNodes (m : List (String × SavedNodeLayout))
    (nodes : List DiagNode) : List DiagNode :=
  nodes.map (fun n =>
    match recordLookup m n.id with
    | some saved =>
        { n with x0 := saved.x0, x1 := saved.x1, y0 := saved.y0, y1 := saved.y1,
                 isRotated := some saved.isRotated }
    | none => n)

/-- The hand-authored "Figure S8 style" default layout applied when no saved
layout exists: fixed coordinates per node id, transcribed from the `else`
branch of the initial-layout effect. -/
def defaultPosition (width height : ℚ) (n : DiagNode) : DiagNode :=
  let w := n.x1 - n.x0
  let h := n.y1 - n.y0
  let topBarY : ℚ := 20
  let topBarHeight : ℚ := 20
  let bottomBarY : ℚ := height - 40
  let bottomBarHeight : ℚ := 20
  let centerY : ℚ := height / 2
  let halfH : ℚ := h / 2
  if n.id = "export" then
    { n with x0 := width / 2, x1 := width - 100,
             y0 := topBarY, y1 := topBarY + topBarHeight, isRotated := some true }
  else if n.id = "loss" then
    { n with x0 := 100, x1 := width - 100,
             y0 := bottomBarY, y1 := bottomBarY + bottomBarHeight,
             isRotated := some true }
  else if n.id = "eol" then
    { n with x0 := 1050, x1 := 1050 + w, y0 := centerY, y1 := centerY + h }
  else if n.id = "ore" then
    { n with x0 := 50, x1 := 50 + w, y0 := centerY - halfH, y1 := centerY + halfH }
  else if n.id = "concentrate" then
    { n with x0 := 250, x1 := 250 + w, y0 := centerY - halfH, y1 := centerY + halfH }
  else if n.id = "metal" then
    { n with x0 := 450, x1 := 450 + w, y0 := centerY - halfH, y1 := centerY + halfH }
  else if n.id = "magnet" then
    { n with x0 := 650, x1 := 650 + w,
             y0 := centerY - halfH - 50, y1 := centerY + halfH - 50 }
  else if n.id = "other_semi" then
    { n with x0 := 650, x1 := 650 + w,
             y0 := centerY - halfH + 80, y1 := centerY + halfH + 80 }
  else if n.id = "wind_turbine" then
    { n with x0 := 900, x1 := 900 + w,
             y0 := centerY - halfH - 50, y1 := centerY + halfH - 50 }
  else if n.id = "other_final" then
    { n with x0 := 900, x1 := 900 + w,
             y0 := centerY - halfH + 50, y1 := centerY + halfH + 50 }
  else n

/-- Post-layout override application of the initial-layout effect: when a
saved layout exists, apply its node entries; otherwise move every node to
the hand-authored default position. -/
def applyLayoutOverrides (savedLayout : Option (List (String × SavedNodeLayout)))
    (width height : ℚ) (nodes : List DiagNode) : List DiagNode :=
  match savedLayout with
  | some m => applySavedNodes m nodes
  | none => nodes.map (defaultPosition width height)

/-- The initial-layout effect around the d3 sankey generator call: on success
the generated graph (with overrides applied) replaces the state; on a raised
layout error the previous graph is kept and the error is logged
(`console.error("Layout Error", e)`), embedded as the `Bool` component. -/
def initialLayoutEffect (prevGraph : Option (List DiagNode))
    (savedLayout : Option (List (String × SavedNodeLayout)))
    (width height : ℚ)
    (layoutResult : Except String (List DiagNode)) :
    Option (List DiagNode) × Bool :=
  match layoutResult with
  | .ok generated =>
      (some (applyLayoutOverrides savedLayout width height generated), false)
  | .error _ => (prevGraph, true)

/-! ## C3: default layout vs. saved-layout branch -/

/-- An `export` node as the generic algorithm might leave it. -/
def nExportAuto : DiagNode := { id := "export", x0 := 0, x1 := 10, y0 := 0, y1 := 10 }

/-- A saved layout containing an entry for `ore` only. -/
def mOreOnly : List (String × SavedNodeLayout) :=
  [("ore", { x0 := 0, x1 := 1, y0 := 0, y1 := 1, isRotated := false })]

/-- **C3, counterexample.**  The fixed default coordinates are applied only
when *no saved layout exists at all*.  With a saved layout present that has
no entry for the `export` node, that node keeps its automatic-layout
geometry and is *not* moved to the fixed reference coordinate, refuting
"every node for which no saved override entry exists has its position
replaced by the fixed domain-specific reference coordinate". -/
theorem c3_counterexample :
    applyLayoutOverrides (some mOreOnly) 1100 700 [nExportAuto] = [nExportAuto] ∧
      nExportAuto ≠ defaultPosition 1100 700 nExportAuto := by
  constructor
  · with_unfolding_all rfl
  · with_unfolding_all decide

/-- **C3, amended.**  When no saved layout exists, every node's position is
replaced by the fixed domain-specific default; when a saved layout exists,
a node without a saved entry retains its automatic-layout geometry
unchanged (the default replacement does not apply in that branch). -/
theorem c3_amended (width height : ℚ) (nodes : List DiagNode)
    (m : List (String × SavedNodeLayout)) :
    (applyLayoutOverrides none width height nodes =
      nodes.map (defaultPosition width height)) ∧
    (∀ (i : Nat) (n : DiagNode), nodes[i]? = some n → recordLookup m n.id = none →
      (applyLayoutOverrides (some m) width height nodes)[i]? = some n) := by
  constructor
  · rfl
  · intro i n hi hm
    show (applySavedNodes m nodes)[i]? = some n
    unfold applySavedNodes
    rw [List.getElem?_map, hi]
    simp [hm]

/-- Witness for C3 (amended): concrete one-node graph, with and without a
saved layout. -/
theorem c3_amended_witness :
    (applyLayoutOverrides none 1100 700 [nExportAuto] =
      [nExportAuto].map (defaultPosition 1100 700)) ∧
    (applyLayoutOverrides (some mOreOnly) 1100 700 [nExportAuto])[0]? =
      some nExportAuto :=
  ⟨(c3_amended 1100 700 [nExportAuto] mOreOnly).1,
   (c3_amended 1100 700 [nExportAuto] mOreOnly).2 0 nExportAuto rfl
     (by with_unfolding_all rfl)⟩

/-! ## C6: save-then-apply round trip -/

/-- A node whose optional rotation flag is absent (`undefined` in JS). -/
def nOreNoFlag : DiagNode := { id := "ore", x0 := 0, x1 := 10, y0 := 0, y1 := 10 }

/-- **C6, counterexample.**  Saving stores `isRotated || false`, and applying
writes that boolean back, so a node whose `isRotated` was *absent* comes
back with an explicit `false` flag: the rectangle is reproduced exactly but
the rotation-flag field is not identical, refuting "reproduces … rotation
flags for every node" read as exact field equality. -/
theorem c6_counterexample :
    applySavedNodes (handleSaveNodes [nOreNoFlag]) [nOreNoFlag] =
      [{ id := "ore", x0 := 0, x1 := 10, y0 := 0, y1 := 10, isRotated := some false }] ∧
    ({ id := "ore", x0 := 0, x1 := 10, y0 := 0, y1 := 10, isRotated := some false } :
      DiagNode) ≠ nOreNoFlag := by
  constructor
  · with_unfolding_all rfl
  · with_unfolding_all decide

/-- **C6, amended.**  For a graph with pairwise-distinct node ids, `save`
followed by `apply` reproduces every node exactly, except that the optional
rotation flag is replaced by its boolean reading (`isRotated || false`): the
rectangles (x0, x1, y0, y1) and the boolean value of every rotation flag
are reproduced. -/
theorem c6_amended (nodes : List DiagNode)
    (h : (nodes.map DiagNode.id).Nodup) :
    applySavedNodes (handleSaveNodes nodes) nodes =
      nodes.map (fun n => { n with isRotated := some (n.isRotated.getD false) }) := by
  unfold applySavedNodes handleSaveNodes
  refine List.map_congr_left ?_
  intro n hn
  rw [recordLookup_map_of_nodup savedNodeOf nodes n h hn]
  rfl

/-- Witness for C6 (amended): a two-node graph, one explicit flag and one
absent flag. -/
def nodesPairW : List DiagNode :=
  [ { id := "a", x0 := 1, x1 := 2, y0 := 3, y1 := 4, isRotated := some true },
    { id := "b", x0 := 5, x1 := 6, y0 := 7, y1 := 8 } ]

theorem c6_amended_witness :
    applySavedNodes (handleSaveNodes nodesPairW) nodesPairW =
      nodesPairW.map (fun n => { n with isRotated := some (n.isRotated.getD false) }) :=
  c6_amended nodesPairW (by with_unfolding_all decide)

/-! ## C7: layout failure handling -/

/-- **C7.**  When the generic flow-layout algorithm raises, the initial-layout
effect reports a layout error and leaves the previously computed working
graph (when one exists) untouched: the state component of the effect's
result is exactly the previous graph. -/
theorem c7_layout_failure_preserves_graph (prevGraph : Option (List DiagNode))
    (savedLayout : Option (List (String × SavedNodeLayout)))
    (width height : ℚ) (e : String) :
    initialLayoutEffect prevGraph savedLayout width height (Except.error e) =
      (prevGraph, true) := rfl

/-! ## Routing Engine (`routedGraph` memo)

The memo mutates each link's `sourceCoords`/`targetCoords` in place, but
every link belongs to exactly one outgoing and one incoming bucket, and
`getCoords` fully overwrites the coordinates of every link of a non-empty
bucket, so the final coordinates depend only on the *geometry* of the graph
(node rectangles, link endpoints and widths) and on the link-offset table.
The embedding therefore computes, from the geometry alone, the coordinate
assignment for every link index, and then writes it onto the links. -/

inductive Side
  | top | bottom | left | right
deriving DecidableEq, Repr

structure Coords where
  x : ℚ
  y : ℚ
  side : Side
deriving DecidableEq, Repr

/-- `SavedLinkLayout` from `types.ts`: per-end optional offset and side. -/
structure SavedLinkLayout where
  sourceOffset : Option ℚ := none
  targetOffset : Option ℚ := none
  sourceSide : Option Side := none
  targetSide : Option Side := none
deriving DecidableEq, Repr

/-- Diagram-side link as the routing engine sees it: endpoints are node
indices (`node.index`), `width` was set by the generic layout (`l.width || 1`
is used when absent or zero), and the coordinate fields are (re)written by
the routing pass. -/
structure RLink where
  source : Nat
  target : Nat
  width : Option ℚ := none
  sourceCoords : Option Coords := none
  targetCoords : Option Coords := none
deriving DecidableEq, Repr

/-- The geometry of a link: the fields of `RLink` the routing pass reads. -/
structure LinkGeom where
  source : Nat
  target : Nat
  width : Option ℚ
deriving DecidableEq, Repr

def geomOf (l : RLink) : LinkGeom := { source := l.source, target := l.target, width := l.width }

def getCenter (n : DiagNode) : ℚ × ℚ := ((n.x0 + n.x1) / 2, (n.y0 + n.y1) / 2)

/-- Placeholder node for out-of-range indices (unreachable on graphs whose
link endpoints are in range, as d3 always produces). -/
def defNode : DiagNode := { id := "", x0 := 0, x1 := 0, y0 := 0, y1 := 0 }

/-- `getLinkKey`: `"{sourceId}-{targetId}"`. -/
def getLinkKey (nodes : List DiagNode) (g : LinkGeom) : String :=
  (nodes.getD g.source defNode).id ++ "-" ++ (nodes.getD g.target defNode).id

/-- Source-side resolution: the saved side if any, else the aspect-ratio
heuristic against the target's center. -/
def sourceSideOf (nodes : List DiagNode) (offs : List (String × SavedLinkLayout))
    (g : LinkGeom) : Side :=
  match (recordLookup offs (getLinkKey nodes g)).bind SavedLinkLayout.sourceSide with
  | some s => s
  | none =>
      let source := nodes.getD g.source defNode
      let target := nodes.getD g.target defNode
      let sC := getCenter source
      let tC := getCenter target
      if source.x1 - source.x0 > source.y1 - source.y0 then
        if tC.2 > sC.2 then .bottom else .top
      else
        if tC.1 > sC.1 then .right else .left

/-- Target-side resolution, symmetric to `sourceSideOf`. -/
def targetSideOf (nodes : List DiagNode) (offs : List (String × SavedLinkLayout))
    (g : LinkGeom) : Side :=
  match (recordLookup offs (getLinkKey nodes g)).bind SavedLinkLayout.targetSide with
  | some s => s
  | none =>
      let source := nodes.getD g.source defNode
      let target := nodes.getD g.target defNode
      let sC := getCenter source
      let tC := getCenter target
      if target.x1 - target.x0 > target.y1 - target.y0 then
        if sC.2 > tC.2 then .bottom else .top
      else
        if sC.1 > tC.1 then .right else .left

/-- Stable insertion sort: same result as the (stable, ES2019) JS
`Array.prototype.sort` for a total preorder comparator. -/
def insertLe {α : Type} (le : α → α → Bool) (a : α) : List α → List α
  | [] => [a]
  | b :: l => if le a b then a :: b :: l else b :: insertLe le a l

def sortLe {α : Type} (le : α → α → Bool) : List α → List α
  | [] => []
  | a :: l => insertLe le a (sortLe le l)

/-! ### On-edge position assignment within one bucket (`getCoords`) -/

/-- One bucket entry: the link's optional width and the saved manual offset
for the end being placed (source offset for outgoing buckets, target offset
for incoming ones). -/
structure BucketLink where
  width : Option ℚ
  manual : Option ℚ
deriving DecidableEq, Repr

/-- `l.width || 1`: `1` when the width is absent or zero. -/
def effWidth (w : Option ℚ) : ℚ :=
  match w with
  | none => 1
  | some v => if v = 0 then 1 else v

/-- `totalValue`: sum of the effective widths of the bucket's links. -/
def totalValue (bs : List BucketLink) : ℚ :=
  (bs.map (fun b => effWidth b.width)).sum

/-- `Math.max(0, Math.min(posOnEdge, edgeLength - lw))`. -/
def clampPos (edgeLength lw p : ℚ) : ℚ := max 0 (min p (edgeLength - lw))

/-- The per-link loop of `getCoords`: a manual offset centers the link at
that offset, otherwise the default cursor is used; the result is clamped;
the cursor always advances by the link width. -/
def bucketPositionsAux (edgeLength : ℚ) : ℚ → List BucketLink → List ℚ
  | _, [] => []
  | currentPos, b :: rest =>
      let lw := effWidth b.width
      let posOnEdge :=
        match b.manual with
        | some m => m - lw / 2
        | none => currentPos
      clampPos edgeLength lw posOnEdge ::
        bucketPositionsAux edgeLength (currentPos + lw) rest

/-- On-edge start positions of a (sorted) bucket's links: the cursor starts
at the centering position `max 0 ((edgeLength - totalValue) / 2)`. -/
def bucketPositions (edgeLength : ℚ) (bs : List BucketLink) : List ℚ :=
  bucketPositionsAux edgeLength (max 0 ((edgeLength - totalValue bs) / 2)) bs

/-- The default cursor value when the `i`-th link of the bucket is placed:
the centering start plus the effective widths of all earlier links.  It
depends only on widths, never on manual offsets. -/
def autoCursor (edgeLength : ℚ) (bs : List BucketLink) (i : Nat) : ℚ :=
  max 0 ((edgeLength - totalValue bs) / 2) +
    ((bs.take i).map (fun b => effWidth b.width)).sum

/-! ### Assembling the routed graph -/

/-- The manual-offset/width view of one indexed bucket member. -/
def bucketEntry (nodes : List DiagNode) (offs : List (String × SavedLinkLayout))
    (isIn : Bool) (p : Nat × LinkGeom) : BucketLink :=
  { width := p.2.width,
    manual := (recordLookup offs (getLinkKey nodes p.2)).bind
      (fun s => if isIn then s.targetOffset else s.sourceOffset) }

/-- Projection of an on-edge midpoint onto the node rectangle, per side. -/
def sideCoords (node : DiagNode) (s : Side) (mid : ℚ) : ℚ × ℚ :=
  match s with
  | .right => (node.x1, node.y0 + mid)
  | .left => (node.x0, node.y0 + mid)
  | .bottom => (node.x0 + mid, node.y1)
  | .top => (node.x0 + mid, node.y0)

/-- `getCoords` for one bucket: sort by the other endpoint's center along
the cross axis (stable), compute on-edge positions, and emit the resolved
coordinate for each member link index. -/
def getCoords (nodes : List DiagNode) (offs : List (String × SavedLinkLayout))
    (node : DiagNode) (s : Side) (isIn : Bool)
    (bucket : List (Nat × LinkGeom)) : List (Nat × Coords) :=
  let sorted := sortLe (fun p q =>
    let op := nodes.getD (if isIn then p.2.source else p.2.target) defNode
    let oq := nodes.getD (if isIn then q.2.source else q.2.target) defNode
    if s = Side.top ∨ s = Side.bottom then
      decide ((getCenter op).1 ≤ (getCenter oq).1)
    else
      decide ((getCenter op).2 ≤ (getCenter oq).2)) bucket
  let edgeLength :=
    if s = Side.top ∨ s = Side.bottom then node.x1 - node.x0 else node.y1 - node.y0
  let ps := bucketPositions edgeLength (sorted.map (bucketEntry nodes offs isIn))
  (sorted.zip ps).map (fun pp =>
    let lw := effWidth pp.1.2.width
    let mid := pp.2 + lw / 2
    let xy := sideCoords node s mid
    (pp.1.1, { x := xy.1, y := xy.2, side := s }))

/-- The bucket of indexed link geometries attached to node `n` on side `s`,
in the given direction. -/
def bucketOf (nodes : List DiagNode) (offs : List (String × SavedLinkLayout))
    (gs : List (Nat × LinkGeom)) (isIn : Bool) (n : Nat) (s : Side) :
    List (Nat × LinkGeom) :=
  gs.filter (fun p =>
    if isIn then p.2.target == n && decide (targetSideOf nodes offs p.2 = s)
    else p.2.source == n && decide (sourceSideOf nodes offs p.2 = s))

/-- All coordinate assignments of one direction: every node, every side. -/
def allAssignments (nodes : List DiagNode) (offs : List (String × SavedLinkLayout))
    (gs : List (Nat × LinkGeom)) (isIn : Bool) : List (Nat × Coords) :=
  (((List.range nodes.length).map (fun n =>
    ([Side.top, Side.bottom, Side.left, Side.right]).map (fun s =>
      getCoords nodes offs (nodes.getD n defNode) s isIn
        (bucketOf nodes offs gs isIn n s))))).flatten.flatten

def lookupCoords (a : List (Nat × Coords)) (i : Nat) : Option Coords :=
  (a.find? (fun p => p.1 == i)).map Prod.snd

/-- Write the computed per-index coordinates onto the links. -/
def routeAux (fs ft : Nat → Option Coords) : List RLink → Nat → List RLink
  | [], _ => []
  | l :: rest, i =>
      { l with sourceCoords := fs i, targetCoords := ft i } ::
        routeAux fs ft rest (i + 1)

/-- The routing pass (`routedGraph`): resolve each link end's coordinates
from the node geometry, the link-offset table and the bucket layout, and
write them onto the links.  Nodes are returned unchanged by the memo, so
the embedding returns the rewritten links. -/
def route (nodes : List DiagNode) (links : List RLink)
    (offs : List (String × SavedLinkLayout)) : List RLink :=
  routeAux
    (lookupCoords (allAssignments nodes offs ((links.map geomOf).enum) false))
    (lookupCoords (allAssignments nodes offs ((links.map geomOf).enum) true))
    links 0

theorem routeAux_map_geomOf (fs ft : Nat → Option Coords) :
    ∀ (L : List RLink) (i : Nat), (routeAux fs ft L i).map geomOf = L.map geomOf := by
  intro L
  induction L with
  | nil => intro i; rfl
  | cons l rest ih =>
    intro i
    simp only [routeAux, List.map_cons, ih]
    rfl

theorem routeAux_idem (fs ft : Nat → Option Coords) :
    ∀ (L : List RLink) (i : Nat),
      routeAux fs ft (routeAux fs ft L i) i = routeAux fs ft L i := by
  intro L
  induction L with
  | nil => intro i; rfl
  | cons l rest ih =>
    intro i
    simp only [routeAux, ih]

/-- **C8.**  Routing is deterministic across invocations: running the
routing pass again — on the very links the previous pass already rewrote
in place, with identical node geometry and an identical link-offset table —
yields identical endpoint coordinates and sides for every link.  (The pass
reads only the geometry fields `source`/`target`/`width` and the offset
table; the coordinate fields it overwrites never feed back in.) -/
theorem c8_routing_deterministic (nodes : List DiagNode) (links : List RLink)
    (offs : List (String × SavedLinkLayout)) :
    route nodes (route nodes links offs) offs = route nodes links offs := by
  unfold route
  rw [routeAux_map_geomOf]
  rw [routeAux_idem]

/-! ## Per-bucket placement: characterization -/

theorem bucketPositionsAux_getD (edgeLength : ℚ) :
    ∀ (bs : List BucketLink) (cur : ℚ) (i : Nat), i < bs.length →
      (bucketPositionsAux edgeLength cur bs).getD i 0 =
        match (bs.getD i ⟨none, none⟩).manual with
        | some m =>
            clampPos edgeLength (effWidth (bs.getD i ⟨none, none⟩).width)
              (m - effWidth (bs.getD i ⟨none, none⟩).width / 2)
        | none =>
            clampPos edgeLength (effWidth (bs.getD i ⟨none, none⟩).width)
              (cur + ((bs.take i).map (fun b => effWidth b.width)).sum) := by
  intro bs
  induction bs with
  | nil => intro cur i h; simp at h
  | cons b rest ih =>
    intro cur i h
    cases i with
    | zero =>
      rcases hm : b.manual with _ | m <;>
        simp [bucketPositionsAux, hm]
    | succ j =>
      have hj : j < rest.length := by simpa using h
      have step := ih (cur + effWidth b.width) j hj
      have hL : bucketPositionsAux edgeLength cur (b :: rest) =
          clampPos edgeLength (effWidth b.width)
            (match b.manual with
             | some m => m - effWidth b.width / 2
             | none => cur) ::
            bucketPositionsAux edgeLength (cur + effWidth b.width) rest := rfl
      rw [hL, List.getD_cons_succ, List.getD_cons_succ, List.take_succ_cons,
          List.map_cons, List.sum_cons, ← add_assoc]
      exact step

theorem bucketPositions_getD_manual (edgeLength : ℚ) (bs : List BucketLink)
    (i : Nat) (h : i < bs.length) (m : ℚ)
    (hm : (bs.getD i ⟨none, none⟩).manual = some m) :
    (bucketPositions edgeLength bs).getD i 0 =
      clampPos edgeLength (effWidth (bs.getD i ⟨none, none⟩).width)
        (m - effWidth (bs.getD i ⟨none, none⟩).width / 2) := by
  have := bucketPositionsAux_getD edgeLength bs
    (max 0 ((edgeLength - totalValue bs) / 2)) i h
  rw [hm] at this
  exact this

theorem bucketPositions_getD_auto (edgeLength : ℚ) (bs : List BucketLink)
    (i : Nat) (h : i < bs.length)
    (hm : (bs.getD i ⟨none, none⟩).manual = none) :
    (bucketPositions edgeLength bs).getD i 0 =
      clampPos edgeLength (effWidth (bs.getD i ⟨none, none⟩).width)
        (autoCursor edgeLength bs i) := by
  have := bucketPositionsAux_getD edgeLength bs
    (max 0 ((edgeLength - totalValue bs) / 2)) i h
  rw [hm] at this
  exact this

/-- **C4.**  For a link end with a saved manual offset, the placement is the
offset minus half the link width, clamped into `[0, edgeLength - width]`;
an auto-positioned link is placed at the default cursor (`autoCursor`),
which is the centering start plus the effective widths of all earlier links
of the bucket — manual links contribute only their widths to it, never
their manual positions, so the cursor for subsequent auto links proceeds
from the default cursor rather than from any manual placement. -/
theorem c4_manual_offset_placement (edgeLength : ℚ) (bs : List BucketLink)
    (i : Nat) (h : i < bs.length) :
    (∀ m, (bs.getD i ⟨none, none⟩).manual = some m →
      (bucketPositions edgeLength bs).getD i 0 =
        clampPos edgeLength (effWidth (bs.getD i ⟨none, none⟩).width)
          (m - effWidth (bs.getD i ⟨none, none⟩).width / 2)) ∧
    ((bs.getD i ⟨none, none⟩).manual = none →
      (bucketPositions edgeLength bs).getD i 0 =
        clampPos edgeLength (effWidth (bs.getD i ⟨none, none⟩).width)
          (autoCursor edgeLength bs i)) :=
  ⟨fun m hm => bucketPositions_getD_manual edgeLength bs i h m hm,
   fun hm => bucketPositions_getD_auto edgeLength bs i h hm⟩

/-- Witness bucket for C4: auto, manual (offset 5), auto — all of width 2 on
an edge of length 10. -/
def bs3W : List BucketLink :=
  [ { width := some 2, manual := none },
    { width := some 2, manual := some 5 },
    { width := some 2, manual := none } ]

/-- Witness for C4: the manual link is centered at offset 5 (position 4),
and the auto link after it is placed at the default cursor 6 —
unperturbed by the manual placement. -/
theorem c4_manual_offset_placement_witness :
    (bucketPositions 10 bs3W).getD 1 0 = 4 ∧ (bucketPositions 10 bs3W).getD 2 0 = 6 := by
  constructor
  · have h := (c4_manual_offset_placement 10 bs3W 1 (by decide)).1 5
      (by with_unfolding_all rfl)
    rw [h]
    with_unfolding_all rfl
  · have h := (c4_manual_offset_placement 10 bs3W 2 (by decide)).2
      (by with_unfolding_all rfl)
    rw [h]
    with_unfolding_all rfl

/-! ## C2: non-overlap of auto-positioned links within one bucket -/

theorem take_sum_nonneg (W : List ℚ) (hW : ∀ x ∈ W, 0 ≤ x) (i : Nat) :
    0 ≤ (W.take i).sum :=
  List.sum_nonneg (fun x hx => hW x (List.mem_of_mem_take hx))

theorem take_sum_le_sum (W : List ℚ) (hW : ∀ x ∈ W, 0 ≤ x) (i : Nat) :
    (W.take i).sum ≤ W.sum := by
  conv_rhs => rw [← List.take_append_drop i W]
  rw [List.sum_append]
  have h2 : 0 ≤ (W.drop i).sum :=
    List.sum_nonneg (fun x hx => hW x (List.mem_of_mem_drop hx))
  linarith

theorem take_sum_succ (W : List ℚ) (i : Nat) (h : i < W.length) :
    (W.take (i + 1)).sum = (W.take i).sum + W.getD i 0 := by
  rw [List.take_succ, List.sum_append, List.getElem?_eq_getElem h,
      List.getD_eq_getElem W 0 h]
  simp

theorem take_sum_mono (W : List ℚ) (hW : ∀ x ∈ W, 0 ≤ x) {m n : Nat}
    (hmn : m ≤ n) : (W.take m).sum ≤ (W.take n).sum := by
  induction n, hmn using Nat.le_induction with
  | base => exact le_refl _
  | succ n hmn ih =>
    have hsum : (W.take (n + 1)).sum = (W.take n).sum + (W[n]?.toList).sum := by
      rw [List.take_succ, List.sum_append]
    have h2 : 0 ≤ (W[n]?.toList).sum := by
      cases hx : W[n]? with
      | none => simp
      | some a =>
        simp only [Option.toList_some, List.sum_cons, List.sum_nil, add_zero]
        exact hW a (List.getElem?_mem hx)
    linarith

theorem autoCursor_step (edgeLength : ℚ) (bs : List BucketLink) (i j : Nat)
    (hij : i < j) (hi : i < bs.length)
    (hw : ∀ b ∈ bs, 0 ≤ effWidth b.width) :
    autoCursor edgeLength bs i + effWidth ((bs.getD i ⟨none, none⟩).width) ≤
      autoCursor edgeLength bs j := by
  unfold autoCursor
  rw [List.map_take, List.map_take]
  have hWnn : ∀ y ∈ bs.map (fun b => effWidth b.width), 0 ≤ y := by
    intro y hy
    obtain ⟨b, hb, rfl⟩ := List.mem_map.mp hy
    exact hw b hb
  have hiW : i < (bs.map (fun b => effWidth b.width)).length := by simpa using hi
  have hgd : effWidth ((bs.getD i ⟨none, none⟩).width) =
      (bs.map (fun b => effWidth b.width)).getD i 0 := by
    rw [List.getD_eq_getElem _ _ hiW, List.getElem_map, List.getD_eq_getElem _ _ hi]
  rw [hgd]
  have h1 := take_sum_succ (bs.map (fun b => effWidth b.width)) i hiW
  have h2 := take_sum_mono (bs.map (fun b => effWidth b.width)) hWnn
    (show i + 1 ≤ j from hij)
  linarith

theorem autoCursor_no_clamp (edgeLength : ℚ) (bs : List BucketLink) (i : Nat)
    (hi : i < bs.length)
    (hw : ∀ b ∈ bs, 0 ≤ effWidth b.width)
    (ht : totalValue bs ≤ edgeLength) :
    0 ≤ autoCursor edgeLength bs i ∧
      autoCursor edgeLength bs i + effWidth ((bs.getD i ⟨none, none⟩).width) ≤
        edgeLength := by
  have hWnn : ∀ y ∈ bs.map (fun b => effWidth b.width), 0 ≤ y := by
    intro y hy
    obtain ⟨b, hb, rfl⟩ := List.mem_map.mp hy
    exact hw b hb
  have hiW : i < (bs.map (fun b => effWidth b.width)).length := by simpa using hi
  have hgd : effWidth ((bs.getD i ⟨none, none⟩).width) =
      (bs.map (fun b => effWidth b.width)).getD i 0 := by
    rw [List.getD_eq_getElem _ _ hiW, List.getElem_map, List.getD_eq_getElem _ _ hi]
  have hT : (bs.map (fun b => effWidth b.width)).sum = totalValue bs := rfl
  have hTnn : 0 ≤ totalValue bs := by
    rw [← hT]
    exact List.sum_nonneg hWnn
  unfold autoCursor
  rw [List.map_take, hgd]
  have h0 : (0:ℚ) ≤ max 0 ((edgeLength - totalValue bs) / 2) := le_max_left _ _
  have hts := take_sum_nonneg (bs.map (fun b => effWidth b.width)) hWnn i
  constructor
  · linarith
  · have hmax : max 0 ((edgeLength - totalValue bs) / 2) =
        (edgeLength - totalValue bs) / 2 := max_eq_right (by linarith)
    have h1 := take_sum_succ (bs.map (fun b => effWidth b.width)) i hiW
    have h2 := take_sum_le_sum (bs.map (fun b => effWidth b.width)) hWnn (i + 1)
    rw [hT] at h2
    rw [hmax]
    linarith

theorem bucketPositions_auto_eq_cursor (edgeLength : ℚ) (bs : List BucketLink)
    (k : Nat) (hk : k < bs.length)
    (hw : ∀ b ∈ bs, 0 ≤ effWidth b.width)
    (ht : totalValue bs ≤ edgeLength)
    (hmk : (bs.getD k ⟨none, none⟩).manual = none) :
    (bucketPositions edgeLength bs).getD k 0 = autoCursor edgeLength bs k := by
  rw [bucketPositions_getD_auto edgeLength bs k hk hmk]
  obtain ⟨h0, h1⟩ := autoCursor_no_clamp edgeLength bs k hk hw ht
  unfold clampPos
  rw [min_eq_left (by linarith), max_eq_right h0]

/-- **C2, amended.**  Within one attachment bucket, two auto-positioned
links (no saved manual offset for that end) occupy disjoint intervals
`[start, start + width)` along the node edge *provided the bucket's total
effective width does not exceed the edge length* (and widths are
nonnegative).  When the total width exceeds the edge, the per-link clamping
into `[0, edgeLength - width]` can make auto-positioned links overlap (see
the counterexample). -/
theorem c2_amended (edgeLength : ℚ) (bs : List BucketLink) (i j : Nat) (x : ℚ)
    (hij : i < j) (hj : j < bs.length)
    (hw : ∀ b ∈ bs, 0 ≤ effWidth b.width)
    (ht : totalValue bs ≤ edgeLength)
    (hmi : (bs.getD i ⟨none, none⟩).manual = none)
    (hmj : (bs.getD j ⟨none, none⟩).manual = none) :
    ¬(((bucketPositions edgeLength bs).getD i 0 ≤ x ∧
        x < (bucketPositions edgeLength bs).getD i 0 +
          effWidth ((bs.getD i ⟨none, none⟩).width)) ∧
      ((bucketPositions edgeLength bs).getD j 0 ≤ x ∧
        x < (bucketPositions edgeLength bs).getD j 0 +
          effWidth ((bs.getD j ⟨none, none⟩).width))) := by
  have hi : i < bs.length := lt_trans hij hj
  rintro ⟨⟨hxi1, hxi2⟩, hxj1, hxj2⟩
  rw [bucketPositions_auto_eq_cursor edgeLength bs i hi hw ht hmi] at hxi1 hxi2
  rw [bucketPositions_auto_eq_cursor edgeLength bs j hj hw ht hmj] at hxj1 hxj2
  have hstep := autoCursor_step edgeLength bs i j hij hi hw
  linarith

/-- Witness bucket for C2 (amended): two auto links, widths 3 and 4, edge 10:
the hypotheses hold and the theorem applies (at the probe point 3). -/
def bsC2W : List BucketLink :=
  [ { width := some 3, manual := none }, { width := some 4, manual := none } ]

theorem c2_amended_witness :
    ¬(((bucketPositions 10 bsC2W).getD 0 0 ≤ 3 ∧
        (3:ℚ) < (bucketPositions 10 bsC2W).getD 0 0 +
          effWidth ((bsC2W.getD 0 ⟨none, none⟩).width)) ∧
      ((bucketPositions 10 bsC2W).getD 1 0 ≤ 3 ∧
        (3:ℚ) < (bucketPositions 10 bsC2W).getD 1 0 +
          effWidth ((bsC2W.getD 1 ⟨none, none⟩).width))) :=
  c2_amended 10 bsC2W 0 1 3 (by decide) (by decide)
    (by with_unfolding_all decide) (by with_unfolding_all decide) rfl rfl

/-- Counterexample graph for C2: one tall source node `A` (right edge of
length 10) with two outgoing links of width 8 to targets `B1`, `B2` on its
right; the offset table is empty, so both links are auto-positioned. -/
def cexNodes : List DiagNode :=
  [ { id := "A", x0 := 0, x1 := 5, y0 := 0, y1 := 10 },
    { id := "B1", x0 := 100, x1 := 105, y0 := 0, y1 := 10 },
    { id := "B2", x0 := 100, x1 := 105, y0 := 20, y1 := 30 } ]

def cexLinks : List RLink :=
  [ { source := 0, target := 1, width := some 8 },
    { source := 0, target := 2, width := some 8 } ]

/-- **C2, counterexample.**  In the routed graph both links land in node
`A`'s outgoing `right` bucket (total width 16 on an edge of length 10) and
are auto-positioned (the offset table is empty), at edge midpoints `y = 4`
and `y = 6`, i.e. occupied intervals `[0, 8)` and `[2, 10)` along the edge —
which are not disjoint (both contain `2`).  So the claim that any two
auto-positioned links of one bucket occupy disjoint intervals is false: the
clamping `max(0, min(pos, edgeLength - width))` folds them back onto the
edge. -/
theorem c2_counterexample :
    route cexNodes cexLinks [] =
      [ { source := 0, target := 1, width := some 8,
          sourceCoords := some { x := 5, y := 4, side := .right },
          targetCoords := some { x := 100, y := 5, side := .left } },
        { source := 0, target := 2, width := some 8,
          sourceCoords := some { x := 5, y := 6, side := .right },
          targetCoords := some { x := 100, y := 25, side := .left } } ] ∧
    bucketPositions 10
      [ { width := some 8, manual := none }, { width := some 8, manual := none } ] =
      [0, 2] ∧
    (((0:ℚ) ≤ 2 ∧ (2:ℚ) < 0 + 8) ∧ ((2:ℚ) ≤ 2 ∧ (2:ℚ) < 2 + 8)) := by
  refine ⟨?_, ?_, ?_⟩
  · with_unfolding_all rfl
  · with_unfolding_all rfl
  · norm_num
